import Mathlib

/-! # A functional model of the infrared gateway registry

This file models the routing registry of the infrared reverse proxy: the
`Gateway` (registry) of `src/gateway.go`, together with the `Gate`
(per-address multiplexer) and `Proxy` (route) collaborators it manages.

Go maps are modelled as association lists over `String` keys.  Go pointer
aliasing of `*Proxy` values (the same route object referenced from a gate's
route map and mutated in place by `updateConfig`) is modelled by a heap
`ProxyId → Proxy` carried inside the registry state: gates store proxy
identifiers, and mutating a proxy in place is a heap update visible from
every gate that references that identifier.  Errors do not roll the state
back, mirroring Go: every fallible operation returns the state exactly as
the Go code leaves it, paired with an optional error value.

The `Gateway` methods are translated statement by statement from
`src/gateway.go`.  The `Gate` and `Proxy` operations and `NewGate` are not
part of the sources at hand; they are modelled from the specification
(sections 4.1 and 4.2) and carry doc comments saying so.
-/

namespace Infrared

/-- Change-notification kinds of the external file watcher (fsnotify op). -/
inductive FsnotifyOp where
  | create
  | write
  | remove
  | rename
  | chmod
deriving DecidableEq, Repr

/-- Error values surfaced by the registry and the collaborators it calls. -/
inductive Err where
  | gateSignatureAlreadyRegistered
  | noGateInGateway
  | gateDoesNotExist
  | duplicateHostname
  | validationFailed
  | invalidGateAddress
deriving DecidableEq, Repr

/-- A route configuration: target listening address, virtual hostname and
backend target.  The `valid` flag models the outcome of the opaque
structural validation the spec requires of `update_config`. -/
structure ProxyConfig where
  listenTo : String
  domainName : String
  proxyTo : String
  valid : Bool
deriving DecidableEq, Repr

/-- A route (source name: `Proxy`): its current listening address, virtual
hostname, and backend target. -/
structure Proxy where
  listenTo : String
  domainName : String
  proxyTo : String
deriving DecidableEq, Repr

/-- Identifier of a route object: the model of a `*Proxy` pointer. -/
abbrev ProxyId := Nat

/-- A multiplexer (source name: `Gate`): one listening address and a map
from hostname to route object. -/
structure Gate where
  listenTo : String
  proxies : List (String × ProxyId)
deriving DecidableEq, Repr

/-- The registry (source name: `Gateway`): the map from listening address to
gate, the running flag, and the process heap resolving `*Proxy` pointers. -/
structure Gateway where
  gates : List (String × Gate)
  running : Bool
  heap : ProxyId → Proxy

/-- Go map lookup `m[k]` on an association list. -/
def alookup {α : Type} (k : String) : List (String × α) → Option α
  | [] => none
  | kv :: rest => if kv.1 = k then some kv.2 else alookup k rest

/-- Go map insertion `m[k] = v` on an association list: replaces the first
binding of `k`, or appends when `k` is absent. -/
def ainsert {α : Type} (k : String) (v : α) : List (String × α) → List (String × α)
  | [] => [(k, v)]
  | kv :: rest => if kv.1 = k then (k, v) :: rest else kv :: ainsert k v rest

/-- Go map deletion `delete(m, k)` on an association list: removes the first
binding of `k`, no-op when `k` is absent. -/
def aerase {α : Type} (k : String) : List (String × α) → List (String × α)
  | [] => []
  | kv :: rest => if kv.1 = k then rest else kv :: aerase k rest

/-- Pointwise heap update: the in-place mutation of a `*Proxy` through its
pointer. -/
def hupdate (heap : ProxyId → Proxy) (pid : ProxyId) (p : Proxy) : ProxyId → Proxy :=
  fun q => if q = pid then p else heap q

/-- Modelled from the spec: `Proxy.updateConfig` is not under `src/`.
Spec 4.1: `update_config` validates the new configuration and, on success,
atomically replaces address, hostname and config as one unit; on failure no
field changes.  Structural validity is modelled by the `valid` flag. -/
def Proxy.updateConfig (_p : Proxy) (cfg : ProxyConfig) : Except Err Proxy :=
  if cfg.valid then
    Except.ok { listenTo := cfg.listenTo, domainName := cfg.domainName, proxyTo := cfg.proxyTo }
  else
    Except.error Err.validationFailed

/-- Modelled from the spec: `Gate.AddProxy` is not under `src/`.
Spec 4.2: `add_route` fails with `DuplicateHostname` when a route with the
same hostname already exists, otherwise inserts the route under its
hostname. -/
def Gate.addProxy (g : Gate) (heap : ProxyId → Proxy) (pid : ProxyId) : Except Err Gate :=
  if (alookup (heap pid).domainName g.proxies).isSome then
    Except.error Err.duplicateHostname
  else
    Except.ok { g with proxies := ainsert (heap pid).domainName pid g.proxies }

/-- Modelled from the spec: `Gate.RemoveProxy` is not under `src/`.
Spec 4.2: `remove_route` is a no-op when the hostname is absent, otherwise
detaches the route. -/
def Gate.removeProxy (g : Gate) (domainName : String) : Gate :=
  { g with proxies := aerase domainName g.proxies }

/-- Modelled from the spec: `Gate.UpdateProxy` is not under `src/`.
Spec 4.2 and 4.3 step 1: `update_route` applies `update_config`; the route
stays in this multiplexer, re-keyed under its (possibly changed) hostname. -/
def Gate.updateProxy (g : Gate) (heap : ProxyId → Proxy) (pid : ProxyId) (cfg : ProxyConfig) :
    Except Err (Gate × (ProxyId → Proxy)) :=
  match Proxy.updateConfig (heap pid) cfg with
  | Except.error e => Except.error e
  | Except.ok p =>
      Except.ok
        ({ g with proxies := ainsert cfg.domainName pid (aerase (heap pid).domainName g.proxies) },
         hupdate heap pid p)

/-- Modelled from the spec: `NewGate` is not under `src/`.
Spec 4.3: multiplexer construction can fail on an invalid listening
address; invalidity is modelled as the empty address string. -/
def NewGate (addr : String) : Except Err Gate :=
  if addr = "" then Except.error Err.invalidGateAddress
  else Except.ok { listenTo := addr, proxies := [] }

/-- `Gateway.AddGate` from `src/gateway.go`: fails with
`ErrGateSignatureAlreadyRegistered` when the gate's address is already a
key, otherwise inserts the gate.  The logger fan-out calls and the
supervising goroutine spawned while running do not touch the modelled
state. -/
def Gateway.AddGate (gw : Gateway) (gate : Gate) : Gateway × Option Err :=
  if (alookup gate.listenTo gw.gates).isSome then
    (gw, some Err.gateSignatureAlreadyRegistered)
  else
    ({ gw with gates := ainsert gate.listenTo gate gw.gates }, none)

/-- `Gateway.RemoveGate` from `src/gateway.go`: a no-op when the address is
not registered; otherwise closes the gate (no effect on the modelled state)
and deletes the key. -/
def Gateway.RemoveGate (gw : Gateway) (addr : String) : Gateway :=
  match alookup addr gw.gates with
  | none => gw
  | some _ => { gw with gates := aerase addr gw.gates }

/-- `Gateway.AddProxy` from `src/gateway.go`: when a gate for the route's
address exists, delegate to its `AddProxy` (the gate is mutated through its
pointer, modelled by re-inserting the updated gate under the same key);
otherwise construct a new gate, register it through `AddGate`, and add the
route to it. -/
def Gateway.AddProxy (gw : Gateway) (pid : ProxyId) : Gateway × Option Err :=
  match alookup (gw.heap pid).listenTo gw.gates with
  | some gate =>
      match gate.addProxy gw.heap pid with
      | Except.error e => (gw, some e)
      | Except.ok gate' =>
          ({ gw with gates := ainsert (gw.heap pid).listenTo gate' gw.gates }, none)
  | none =>
      match NewGate (gw.heap pid).listenTo with
      | Except.error e => (gw, some e)
      | Except.ok gate =>
          match gw.AddGate gate with
          | (gw2, some e) => (gw2, some e)
          | (gw2, none) =>
              match gate.addProxy gw2.heap pid with
              | Except.error e => (gw2, some e)
              | Except.ok gate' =>
                  ({ gw2 with gates := ainsert gate.listenTo gate' gw2.gates }, none)

/-- `Gateway.RemoveProxy` from `src/gateway.go`: a no-op when no gate is
registered for the address; otherwise delegates to that gate's
`RemoveProxy` (in-place mutation modelled by re-inserting the updated gate
under the same key). -/
def Gateway.RemoveProxy (gw : Gateway) (addr domainName : String) : Gateway :=
  match alookup addr gw.gates with
  | none => gw
  | some gate => { gw with gates := ainsert addr (gate.removeProxy domainName) gw.gates }

/-- `Gateway.ListenAndServe` from `src/gateway.go`, as a sequential state
transformer: with zero gates it returns `ErrNoGateInGateway` at once and
changes nothing; otherwise it serves every gate to completion — each
supervising task deletes its gate from the map when its serve loop ends,
and after the wait the running flag is reset — and returns no error. -/
def Gateway.ListenAndServe (gw : Gateway) : Gateway × Option Err :=
  if gw.gates.length ≤ 0 then (gw, some Err.noGateInGateway)
  else ({ gw with gates := [], running := false }, none)

/-- `Gateway.UpdateProxy` from `src/gateway.go` (the spec's `reconcile`
state machine), translated statement by statement; the `Gate` and `Proxy`
operations it delegates to are the spec-modelled ones above.  In the branch
where a gate for the new address already exists, the final `RemoveProxy`
call is made on THAT target gate, exactly as in the source. -/
def Gateway.UpdateProxy (gw : Gateway) (pid : ProxyId) (cfg : ProxyConfig) : Gateway × Option Err :=
  if cfg.listenTo = (gw.heap pid).listenTo then
    match alookup (gw.heap pid).listenTo gw.gates with
    | none => (gw, some Err.gateDoesNotExist)
    | some gate =>
        match gate.updateProxy gw.heap pid cfg with
        | Except.error e => (gw, some e)
        | Except.ok (gate', heap') =>
            ({ gw with gates := ainsert (gw.heap pid).listenTo gate' gw.gates, heap := heap' },
             none)
  else
    match alookup cfg.listenTo gw.gates with
    | none =>
        let oldAddr := (gw.heap pid).listenTo
        let oldDomainName := (gw.heap pid).domainName
        match Proxy.updateConfig (gw.heap pid) cfg with
        | Except.error e => (gw, some e)
        | Except.ok p =>
            let gw1 : Gateway := { gw with heap := hupdate gw.heap pid p }
            match gw1.AddProxy pid with
            | (gw2, some e) => (gw2, some e)
            | (gw2, none) => (gw2.RemoveProxy oldAddr oldDomainName, none)
    | some gate =>
        let oldDomainName := (gw.heap pid).domainName
        match Proxy.updateConfig (gw.heap pid) cfg with
        | Except.error e => (gw, some e)
        | Except.ok p =>
            let gw1 : Gateway := { gw with heap := hupdate gw.heap pid p }
            match gate.addProxy gw1.heap pid with
            | Except.error e => (gw1, some e)
            | Except.ok gate' =>
                let gw2 : Gateway := { gw1 with gates := ainsert cfg.listenTo gate' gw1.gates }
                ({ gw2 with gates := ainsert cfg.listenTo (gate'.removeProxy oldDomainName) gw2.gates },
                 none)

/-- The sequence of registry states visited by `Gateway.AddProxy`, starting
with the initial state, with one entry after every mutation of the
registry. -/
def Gateway.AddProxyTrace (gw : Gateway) (pid : ProxyId) : List Gateway :=
  match alookup (gw.heap pid).listenTo gw.gates with
  | some gate =>
      match gate.addProxy gw.heap pid with
      | Except.error _ => [gw]
      | Except.ok gate' =>
          [gw, { gw with gates := ainsert (gw.heap pid).listenTo gate' gw.gates }]
  | none =>
      match NewGate (gw.heap pid).listenTo with
      | Except.error _ => [gw]
      | Except.ok gate =>
          match gw.AddGate gate with
          | (_, some _) => [gw]
          | (gw2, none) =>
              match gate.addProxy gw2.heap pid with
              | Except.error _ => [gw, gw2]
              | Except.ok gate' =>
                  [gw, gw2, { gw2 with gates := ainsert gate.listenTo gate' gw2.gates }]

/-- The sequence of registry states visited by `Gateway.UpdateProxy`
(`reconcile`), starting with the initial state, with one entry after every
mutation of the registry, including the states visited inside the nested
`AddProxy` call. -/
def Gateway.UpdateProxyTrace (gw : Gateway) (pid : ProxyId) (cfg : ProxyConfig) : List Gateway :=
  if cfg.listenTo = (gw.heap pid).listenTo then
    match alookup (gw.heap pid).listenTo gw.gates with
    | none => [gw]
    | some gate =>
        match gate.updateProxy gw.heap pid cfg with
        | Except.error _ => [gw]
        | Except.ok (gate', heap') =>
            [gw, { gw with gates := ainsert (gw.heap pid).listenTo gate' gw.gates, heap := heap' }]
  else
    match alookup cfg.listenTo gw.gates with
    | none =>
        let oldAddr := (gw.heap pid).listenTo
        let oldDomainName := (gw.heap pid).domainName
        match Proxy.updateConfig (gw.heap pid) cfg with
        | Except.error _ => [gw]
        | Except.ok p =>
            let gw1 : Gateway := { gw with heap := hupdate gw.heap pid p }
            gw :: (gw1.AddProxyTrace pid ++
              match gw1.AddProxy pid with
              | (_, some _) => []
              | (gw2, none) => [gw2.RemoveProxy oldAddr oldDomainName])
    | some gate =>
        let oldDomainName := (gw.heap pid).domainName
        match Proxy.updateConfig (gw.heap pid) cfg with
        | Except.error _ => [gw]
        | Except.ok p =>
            let gw1 : Gateway := { gw with heap := hupdate gw.heap pid p }
            match gate.addProxy gw1.heap pid with
            | Except.error _ => [gw, gw1]
            | Except.ok gate' =>
                let gw2 : Gateway := { gw1 with gates := ainsert cfg.listenTo gate' gw1.gates }
                [gw, gw1, gw2,
                 { gw2 with gates := ainsert cfg.listenTo (gate'.removeProxy oldDomainName) gw2.gates }]

/-- `Gateway.onConfigChange` from `src/gateway.go`: the handler installed on
the external config watcher.  `loadRes` stands for the result of the
external `LoadProxyConfig` call.  Returns the resulting state together with
two flags: whether the configuration was (re)loaded and whether
`UpdateProxy` was invoked. -/
def Gateway.onConfigChange (gw : Gateway) (pid : ProxyId) (loadRes : Except Err ProxyConfig)
    (op : FsnotifyOp) : Gateway × Bool × Bool :=
  if op ≠ FsnotifyOp.write then (gw, false, false)
  else
    match loadRes with
    | Except.error _ => (gw, true, false)
    | Except.ok cfg => ((gw.UpdateProxy pid cfg).1, true, true)

/-- The registry maps address `addr` to a gate whose route map binds
hostname `domainName` to the route object `pid`. -/
def bindsTo (gw : Gateway) (addr domainName : String) (pid : ProxyId) : Bool :=
  match alookup addr gw.gates with
  | none => false
  | some g => alookup domainName g.proxies == some pid

/-- The registered listening addresses, in registration order. -/
def Gateway.addrs (gw : Gateway) : List String :=
  gw.gates.map Prod.fst

/-- Well-formedness of a gate: hostnames are unique within its route map. -/
def GateWF (g : Gate) : Prop :=
  (g.proxies.map Prod.fst).Nodup

/-- Well-formedness of the registry: addresses are unique and every
registered gate is well-formed. -/
def GatewayWF (gw : Gateway) : Prop :=
  (gw.gates.map Prod.fst).Nodup ∧ ∀ kg ∈ gw.gates, GateWF kg.2

instance decGateWF (g : Gate) : Decidable (GateWF g) := by
  unfold GateWF
  infer_instance

instance decGatewayWF (gw : Gateway) : Decidable (GatewayWF gw) := by
  unfold GatewayWF
  infer_instance

/-! ## Concrete example states used by witnesses and counter-evidence -/

/-- Example heap: route object 1 is the route (B, h2, u); every other
identifier resolves to the route (A, h, t). -/
def exHeap : ProxyId → Proxy :=
  fun q => if q = 1 then ⟨"B", "h2", "u"⟩ else ⟨"A", "h", "t"⟩

/-- Gate at address A holding route 0 under hostname h. -/
def gateA : Gate := ⟨"A", [("h", 0)]⟩

/-- Empty gate at address B. -/
def gateB : Gate := ⟨"B", []⟩

/-- Gate at address B holding route 1 under hostname h2. -/
def gateB2 : Gate := ⟨"B", [("h2", 1)]⟩

/-- Empty gate at address C. -/
def gateC : Gate := ⟨"C", []⟩

/-- Registry with gate A holding route 0 and an empty gate B. -/
def exGw : Gateway := ⟨[("A", gateA), ("B", gateB)], false, exHeap⟩

/-- Registry with only gate A holding route 0. -/
def exGwA : Gateway := ⟨[("A", gateA)], false, exHeap⟩

/-- Registry with gate A holding route 0 and gate B holding route 1 under h2. -/
def exGwB2 : Gateway := ⟨[("A", gateA), ("B", gateB2)], false, exHeap⟩

/-- Registry with no gates. -/
def exEmptyGw : Gateway := ⟨[], false, exHeap⟩

/-- New config moving a route to (B, h2). -/
def exCfg : ProxyConfig := ⟨"B", "h2", "t", true⟩

/-- New config moving a route to (B, h): the address changes, the hostname
stays the same. -/
def exCfgBh : ProxyConfig := ⟨"B", "h", "t", true⟩

/-- New config moving a route to (C, h2); no gate C is registered. -/
def exCfgC : ProxyConfig := ⟨"C", "h2", "t", true⟩

/-- New config keeping address A and changing the hostname to h3. -/
def exCfgA : ProxyConfig := ⟨"A", "h3", "t", true⟩

/-! ## Association-list lemmas -/

theorem alookup_ainsert_self {α : Type} (k : String) (v : α) (l : List (String × α)) :
    alookup k (ainsert k v l) = some v := by
  induction l with
  | nil => simp [ainsert, alookup]
  | cons kv rest ih =>
      obtain ⟨a, b⟩ := kv
      by_cases ha : a = k
      · simp [ainsert, ha, alookup]
      · simp [ainsert, ha, alookup, ih]

theorem alookup_ainsert_of_ne {α : Type} (k k2 : String) (v : α) (l : List (String × α))
    (h : k2 ≠ k) : alookup k2 (ainsert k v l) = alookup k2 l := by
  have hk2 : k ≠ k2 := Ne.symm h
  induction l with
  | nil => simp [ainsert, alookup, hk2]
  | cons kv rest ih =>
      obtain ⟨a, b⟩ := kv
      by_cases ha : a = k
      · have ha2 : a ≠ k2 := by rw [ha]; exact hk2
        simp [ainsert, ha, alookup, hk2, ha2]
      · by_cases ha2 : a = k2
        · simp [ainsert, ha, alookup, ha2, h]
        · simp [ainsert, ha, alookup, ha2, ih]

theorem alookup_aerase_of_ne {α : Type} (k k2 : String) (l : List (String × α))
    (h : k2 ≠ k) : alookup k2 (aerase k l) = alookup k2 l := by
  induction l with
  | nil => simp [aerase]
  | cons kv rest ih =>
      obtain ⟨a, b⟩ := kv
      by_cases ha : a = k
      · have ha2 : a ≠ k2 := by rw [ha]; exact Ne.symm h
        simp [aerase, ha, alookup, ha2, Ne.symm h]
      · by_cases ha2 : a = k2
        · simp [aerase, ha, alookup, ha2, h]
        · simp [aerase, ha, alookup, ha2, ih]

theorem alookup_eq_none_of_not_mem {α : Type} (k : String) (l : List (String × α))
    (h : k ∉ l.map Prod.fst) : alookup k l = none := by
  induction l with
  | nil => simp [alookup]
  | cons kv rest ih =>
      obtain ⟨a, b⟩ := kv
      simp only [List.map_cons, List.mem_cons, not_or] at h
      have ha : a ≠ k := Ne.symm h.1
      simp [alookup, ha, ih h.2]

theorem alookup_aerase_self {α : Type} (k : String) (l : List (String × α))
    (hnd : (l.map Prod.fst).Nodup) : alookup k (aerase k l) = none := by
  induction l with
  | nil => simp [aerase, alookup]
  | cons kv rest ih =>
      obtain ⟨a, b⟩ := kv
      simp only [List.map_cons, List.nodup_cons] at hnd
      by_cases ha : a = k
      · have h1 : aerase k ((a, b) :: rest) = rest := by simp [aerase, ha]
        have h2 : k ∉ rest.map Prod.fst := ha ▸ hnd.1
        rw [h1]
        exact alookup_eq_none_of_not_mem k rest h2
      · simp [aerase, ha, alookup, ih hnd.2]

theorem ainsert_length_of_none {α : Type} (k : String) (v : α) (l : List (String × α))
    (h : alookup k l = none) : (ainsert k v l).length = l.length + 1 := by
  induction l with
  | nil => simp [ainsert]
  | cons kv rest ih =>
      obtain ⟨a, b⟩ := kv
      by_cases ha : a = k
      · simp [alookup, ha] at h
      · have h2 : alookup k rest = none := by simpa [alookup, ha] using h
        simp [ainsert, ha, ih h2]

theorem map_fst_ainsert_of_some {α : Type} (k : String) (v w : α) (l : List (String × α))
    (h : alookup k l = some w) : (ainsert k v l).map Prod.fst = l.map Prod.fst := by
  induction l with
  | nil => simp [alookup] at h
  | cons kv rest ih =>
      obtain ⟨a, b⟩ := kv
      by_cases ha : a = k
      · simp [ainsert, ha]
      · have h2 : alookup k rest = some w := by simpa [alookup, ha] using h
        simp [ainsert, ha, ih h2]

theorem ainsert_length_of_some {α : Type} (k : String) (v w : α) (l : List (String × α))
    (h : alookup k l = some w) : (ainsert k v l).length = l.length := by
  have hm := map_fst_ainsert_of_some k v w l h
  have hl := congrArg List.length hm
  simpa using hl

theorem alookup_mem {α : Type} (k : String) (v : α) (l : List (String × α))
    (h : alookup k l = some v) : (k, v) ∈ l := by
  induction l with
  | nil => simp [alookup] at h
  | cons kv rest ih =>
      obtain ⟨a, b⟩ := kv
      by_cases ha : a = k
      · have hb : b = v := by simpa [alookup, ha] using h
        subst hb
        subst ha
        exact List.mem_cons_self _ _
      · have h2 : alookup k rest = some v := by simpa [alookup, ha] using h
        exact List.mem_cons_of_mem _ (ih h2)

/-! ## Branch equations for Gateway.AddProxy and Gateway.UpdateProxy -/

/-- The registry state after a successful in-place `updateConfig` of route
`pid` to configuration `cfg`. -/
def Gateway.withUpdated (gw : Gateway) (pid : ProxyId) (cfg : ProxyConfig) : Gateway :=
  { gw with heap := hupdate gw.heap pid ⟨cfg.listenTo, cfg.domainName, cfg.proxyTo⟩ }

theorem AddProxy_fresh_eq (gw : Gateway) (pid : ProxyId)
    (hg : alookup (gw.heap pid).listenTo gw.gates = none)
    (hne : (gw.heap pid).listenTo ≠ "") :
    gw.AddProxy pid =
      ({ gw with gates := ainsert (gw.heap pid).listenTo (Gate.mk (gw.heap pid).listenTo [((gw.heap pid).domainName, pid)]) (ainsert (gw.heap pid).listenTo (Gate.mk (gw.heap pid).listenTo []) gw.gates) },
       none) := by
  unfold Gateway.AddProxy
  rw [hg]
  dsimp only
  unfold NewGate
  rw [if_neg hne]
  dsimp only
  unfold Gateway.AddGate
  rw [show alookup (Gate.mk (gw.heap pid).listenTo []).listenTo gw.gates = none from hg]
  dsimp only
  simp [Gate.addProxy, alookup, ainsert]

theorem AddProxy_fresh_invalid_eq (gw : Gateway) (pid : ProxyId)
    (hg : alookup (gw.heap pid).listenTo gw.gates = none)
    (he : (gw.heap pid).listenTo = "") :
    gw.AddProxy pid = (gw, some Err.invalidGateAddress) := by
  unfold Gateway.AddProxy
  rw [hg]
  dsimp only
  unfold NewGate
  rw [if_pos he]

theorem AddProxy_existing_error_eq (gw : Gateway) (pid : ProxyId) (gate : Gate) (e : Err)
    (hg : alookup (gw.heap pid).listenTo gw.gates = some gate)
    (he : gate.addProxy gw.heap pid = Except.error e) :
    gw.AddProxy pid = (gw, some e) := by
  unfold Gateway.AddProxy
  rw [hg]
  dsimp only
  rw [he]

theorem AddProxy_existing_ok_eq (gw : Gateway) (pid : ProxyId) (gate gate' : Gate)
    (hg : alookup (gw.heap pid).listenTo gw.gates = some gate)
    (hok : gate.addProxy gw.heap pid = Except.ok gate') :
    gw.AddProxy pid =
      ({ gw with gates := ainsert (gw.heap pid).listenTo gate' gw.gates }, none) := by
  unfold Gateway.AddProxy
  rw [hg]
  dsimp only
  rw [hok]

theorem UpdateProxy_same_none_eq (gw : Gateway) (pid : ProxyId) (cfg : ProxyConfig)
    (hsame : cfg.listenTo = (gw.heap pid).listenTo)
    (hg : alookup (gw.heap pid).listenTo gw.gates = none) :
    gw.UpdateProxy pid cfg = (gw, some Err.gateDoesNotExist) := by
  unfold Gateway.UpdateProxy
  rw [if_pos hsame, hg]

theorem UpdateProxy_same_error_eq (gw : Gateway) (pid : ProxyId) (cfg : ProxyConfig)
    (gate : Gate) (e : Err)
    (hsame : cfg.listenTo = (gw.heap pid).listenTo)
    (hg : alookup (gw.heap pid).listenTo gw.gates = some gate)
    (he : gate.updateProxy gw.heap pid cfg = Except.error e) :
    gw.UpdateProxy pid cfg = (gw, some e) := by
  unfold Gateway.UpdateProxy
  rw [if_pos hsame, hg]
  dsimp only
  rw [he]

theorem UpdateProxy_same_ok_eq (gw : Gateway) (pid : ProxyId) (cfg : ProxyConfig)
    (gate gate' : Gate) (heap' : ProxyId → Proxy)
    (hsame : cfg.listenTo = (gw.heap pid).listenTo)
    (hg : alookup (gw.heap pid).listenTo gw.gates = some gate)
    (hok : gate.updateProxy gw.heap pid cfg = Except.ok (gate', heap')) :
    gw.UpdateProxy pid cfg =
      ({ gw with gates := ainsert (gw.heap pid).listenTo gate' gw.gates, heap := heap' },
       none) := by
  unfold Gateway.UpdateProxy
  rw [if_pos hsame, hg]
  dsimp only
  rw [hok]

theorem UpdateProxy_move_invalid_eq (gw : Gateway) (pid : ProxyId) (cfg : ProxyConfig)
    (hdiff : cfg.listenTo ≠ (gw.heap pid).listenTo)
    (hinvalid : cfg.valid = false) :
    gw.UpdateProxy pid cfg = (gw, some Err.validationFailed) := by
  unfold Gateway.UpdateProxy
  rw [if_neg hdiff]
  cases hg : alookup cfg.listenTo gw.gates with
  | none => simp [Proxy.updateConfig, hinvalid]
  | some gate => simp [Proxy.updateConfig, hinvalid]

theorem UpdateProxy_move_fresh_error_eq (gw : Gateway) (pid : ProxyId) (cfg : ProxyConfig)
    (gw2 : Gateway) (e : Err)
    (hdiff : cfg.listenTo ≠ (gw.heap pid).listenTo)
    (hg : alookup cfg.listenTo gw.gates = none)
    (hvalid : cfg.valid = true)
    (hadd : (gw.withUpdated pid cfg).AddProxy pid = (gw2, some e)) :
    gw.UpdateProxy pid cfg = (gw2, some e) := by
  unfold Gateway.UpdateProxy
  rw [if_neg hdiff, hg]
  unfold Gateway.withUpdated at hadd
  simp only [Proxy.updateConfig, hvalid, if_true]
  rw [hadd]

theorem UpdateProxy_move_fresh_ok_eq (gw : Gateway) (pid : ProxyId) (cfg : ProxyConfig)
    (gw2 : Gateway)
    (hdiff : cfg.listenTo ≠ (gw.heap pid).listenTo)
    (hg : alookup cfg.listenTo gw.gates = none)
    (hvalid : cfg.valid = true)
    (hadd : (gw.withUpdated pid cfg).AddProxy pid = (gw2, none)) :
    gw.UpdateProxy pid cfg =
      (gw2.RemoveProxy (gw.heap pid).listenTo (gw.heap pid).domainName, none) := by
  unfold Gateway.UpdateProxy
  rw [if_neg hdiff, hg]
  unfold Gateway.withUpdated at hadd
  simp only [Proxy.updateConfig, hvalid, if_true]
  rw [hadd]

theorem UpdateProxy_move_existing_error_eq (gw : Gateway) (pid : ProxyId) (cfg : ProxyConfig)
    (gate : Gate) (e : Err)
    (hdiff : cfg.listenTo ≠ (gw.heap pid).listenTo)
    (hg : alookup cfg.listenTo gw.gates = some gate)
    (hvalid : cfg.valid = true)
    (he : gate.addProxy (gw.withUpdated pid cfg).heap pid = Except.error e) :
    gw.UpdateProxy pid cfg = (gw.withUpdated pid cfg, some e) := by
  unfold Gateway.UpdateProxy
  rw [if_neg hdiff, hg]
  unfold Gateway.withUpdated at he
  simp only [Proxy.updateConfig, hvalid, if_true]
  rw [he]
  rfl

theorem UpdateProxy_move_existing_ok_eq (gw : Gateway) (pid : ProxyId) (cfg : ProxyConfig)
    (gate gate' : Gate)
    (hdiff : cfg.listenTo ≠ (gw.heap pid).listenTo)
    (hg : alookup cfg.listenTo gw.gates = some gate)
    (hvalid : cfg.valid = true)
    (hok : gate.addProxy (gw.withUpdated pid cfg).heap pid = Except.ok gate') :
    gw.UpdateProxy pid cfg =
      ({ gw.withUpdated pid cfg with
          gates := ainsert cfg.listenTo (gate'.removeProxy (gw.heap pid).domainName)
            (ainsert cfg.listenTo gate' gw.gates) }, none) := by
  unfold Gateway.UpdateProxy
  rw [if_neg hdiff, hg]
  unfold Gateway.withUpdated at hok
  simp only [Proxy.updateConfig, hvalid, if_true]
  rw [hok]
  rfl

/-! ## Lemmas about bindsTo and the visited-state traces -/

theorem bindsTo_eq_true_iff (gw : Gateway) (addr domainName : String) (pid : ProxyId) :
    bindsTo gw addr domainName pid = true ↔
    ∃ g, alookup addr gw.gates = some g ∧ alookup domainName g.proxies = some pid := by
  unfold bindsTo
  cases hg : alookup addr gw.gates with
  | none => simp
  | some g => simp

theorem bindsTo_update_gates (gw0 : Gateway) (l : List (String × Gate))
    (a h : String) (p : ProxyId)
    (heq : alookup a l = alookup a gw0.gates) :
    bindsTo { gw0 with gates := l } a h p = bindsTo gw0 a h p := by
  unfold bindsTo
  dsimp only
  rw [heq]

theorem RemoveProxy_heap (gw : Gateway) (addr domainName : String) :
    (gw.RemoveProxy addr domainName).heap = gw.heap := by
  unfold Gateway.RemoveProxy
  cases hg : alookup addr gw.gates with
  | none => rfl
  | some gate => rfl

theorem bindsTo_RemoveProxy_other (gw : Gateway) (addr domainName a h : String) (p : ProxyId)
    (hne : a ≠ addr) :
    bindsTo (gw.RemoveProxy addr domainName) a h p = bindsTo gw a h p := by
  unfold Gateway.RemoveProxy
  cases hg : alookup addr gw.gates with
  | none => rfl
  | some gate =>
      dsimp only
      unfold bindsTo
      dsimp only
      rw [alookup_ainsert_of_ne addr a (gate.removeProxy domainName) gw.gates hne]

theorem bindsTo_RemoveProxy_self (gw : Gateway) (addr domainName : String) (p : ProxyId)
    (hwfg : ∀ g, alookup addr gw.gates = some g → GateWF g) :
    bindsTo (gw.RemoveProxy addr domainName) addr domainName p = false := by
  unfold Gateway.RemoveProxy
  cases hg : alookup addr gw.gates with
  | none =>
      dsimp only
      unfold bindsTo
      rw [hg]
  | some gate =>
      dsimp only
      unfold bindsTo
      dsimp only
      rw [alookup_ainsert_self addr (gate.removeProxy domainName) gw.gates]
      dsimp only
      have hnone : alookup domainName (gate.removeProxy domainName).proxies = none := by
        unfold Gate.removeProxy
        exact alookup_aerase_self domainName gate.proxies (hwfg gate hg)
      rw [hnone]
      rfl

theorem AddProxyTrace_fresh_invalid_eq (gw : Gateway) (pid : ProxyId)
    (hg : alookup (gw.heap pid).listenTo gw.gates = none)
    (he : (gw.heap pid).listenTo = "") :
    gw.AddProxyTrace pid = [gw] := by
  unfold Gateway.AddProxyTrace
  rw [hg]
  dsimp only
  unfold NewGate
  rw [if_pos he]

theorem AddProxyTrace_fresh_eq (gw : Gateway) (pid : ProxyId)
    (hg : alookup (gw.heap pid).listenTo gw.gates = none)
    (hne : (gw.heap pid).listenTo ≠ "") :
    gw.AddProxyTrace pid =
      [gw,
       { gw with gates := ainsert (gw.heap pid).listenTo (Gate.mk (gw.heap pid).listenTo []) gw.gates },
       { gw with gates := ainsert (gw.heap pid).listenTo (Gate.mk (gw.heap pid).listenTo [((gw.heap pid).domainName, pid)]) (ainsert (gw.heap pid).listenTo (Gate.mk (gw.heap pid).listenTo []) gw.gates) }] := by
  unfold Gateway.AddProxyTrace
  rw [hg]
  dsimp only
  unfold NewGate
  rw [if_neg hne]
  dsimp only
  unfold Gateway.AddGate
  rw [show alookup (Gate.mk (gw.heap pid).listenTo []).listenTo gw.gates = none from hg]
  dsimp only
  simp [Gate.addProxy, alookup, ainsert]

theorem UpdateProxyTrace_move_invalid_eq (gw : Gateway) (pid : ProxyId) (cfg : ProxyConfig)
    (hdiff : cfg.listenTo ≠ (gw.heap pid).listenTo)
    (hinvalid : cfg.valid = false) :
    gw.UpdateProxyTrace pid cfg = [gw] := by
  unfold Gateway.UpdateProxyTrace
  rw [if_neg hdiff]
  cases hg : alookup cfg.listenTo gw.gates with
  | none => simp [Proxy.updateConfig, hinvalid]
  | some gate => simp [Proxy.updateConfig, hinvalid]

theorem UpdateProxyTrace_move_fresh_error_eq (gw : Gateway) (pid : ProxyId) (cfg : ProxyConfig)
    (gw2 : Gateway) (e : Err)
    (hdiff : cfg.listenTo ≠ (gw.heap pid).listenTo)
    (hg : alookup cfg.listenTo gw.gates = none)
    (hvalid : cfg.valid = true)
    (hadd : (gw.withUpdated pid cfg).AddProxy pid = (gw2, some e)) :
    gw.UpdateProxyTrace pid cfg = gw :: ((gw.withUpdated pid cfg).AddProxyTrace pid ++ []) := by
  unfold Gateway.UpdateProxyTrace
  rw [if_neg hdiff, hg]
  unfold Gateway.withUpdated at hadd
  simp only [Proxy.updateConfig, hvalid, if_true]
  rw [hadd]
  rfl

theorem UpdateProxyTrace_move_fresh_ok_eq (gw : Gateway) (pid : ProxyId) (cfg : ProxyConfig)
    (gw2 : Gateway)
    (hdiff : cfg.listenTo ≠ (gw.heap pid).listenTo)
    (hg : alookup cfg.listenTo gw.gates = none)
    (hvalid : cfg.valid = true)
    (hadd : (gw.withUpdated pid cfg).AddProxy pid = (gw2, none)) :
    gw.UpdateProxyTrace pid cfg =
      gw :: ((gw.withUpdated pid cfg).AddProxyTrace pid ++
        [gw2.RemoveProxy (gw.heap pid).listenTo (gw.heap pid).domainName]) := by
  unfold Gateway.UpdateProxyTrace
  rw [if_neg hdiff, hg]
  unfold Gateway.withUpdated at hadd
  simp only [Proxy.updateConfig, hvalid, if_true]
  rw [hadd]
  rfl

theorem UpdateProxyTrace_move_existing_error_eq (gw : Gateway) (pid : ProxyId)
    (cfg : ProxyConfig) (gate : Gate) (e : Err)
    (hdiff : cfg.listenTo ≠ (gw.heap pid).listenTo)
    (hg : alookup cfg.listenTo gw.gates = some gate)
    (hvalid : cfg.valid = true)
    (he : gate.addProxy (gw.withUpdated pid cfg).heap pid = Except.error e) :
    gw.UpdateProxyTrace pid cfg = [gw, gw.withUpdated pid cfg] := by
  unfold Gateway.UpdateProxyTrace
  rw [if_neg hdiff, hg]
  unfold Gateway.withUpdated at he
  simp only [Proxy.updateConfig, hvalid, if_true]
  rw [he]
  rfl

theorem UpdateProxyTrace_move_existing_ok_eq (gw : Gateway) (pid : ProxyId)
    (cfg : ProxyConfig) (gate gate' : Gate)
    (hdiff : cfg.listenTo ≠ (gw.heap pid).listenTo)
    (hg : alookup cfg.listenTo gw.gates = some gate)
    (hvalid : cfg.valid = true)
    (hok : gate.addProxy (gw.withUpdated pid cfg).heap pid = Except.ok gate') :
    gw.UpdateProxyTrace pid cfg =
      [gw, gw.withUpdated pid cfg,
       { gw.withUpdated pid cfg with gates := ainsert cfg.listenTo gate' gw.gates },
       { gw.withUpdated pid cfg with gates := ainsert cfg.listenTo (gate'.removeProxy (gw.heap pid).domainName) (ainsert cfg.listenTo gate' gw.gates) }] := by
  unfold Gateway.UpdateProxyTrace
  rw [if_neg hdiff, hg]
  unfold Gateway.withUpdated at hok
  simp only [Proxy.updateConfig, hvalid, if_true]
  rw [hok]
  rfl

/-! ## Claim theorems -/

/-- C1: counter-evidence on the code.  Moving route 0 from (A, h) to (B, h2)
with a gate for B already registered succeeds, yet the gate at the former
address A still maps the old hostname h to the route: the source removes the
old hostname from the TARGET gate instead of from the old one, so the old
(address, hostname) binding survives — refuting the claim that after a
successful call the multiplexer at the route's former address no longer maps
the old hostname.  When the hostname does not change (config exCfgBh), the
same slip even deletes the binding that was just added to the target gate. -/
theorem C1_old_binding_survives :
    (exGw.UpdateProxy 0 exCfg).2 = none ∧
    bindsTo (exGw.UpdateProxy 0 exCfg).1 "A" "h" 0 = true ∧
    bindsTo (exGw.UpdateProxy 0 exCfg).1 "B" "h2" 0 = true ∧
    (exGw.UpdateProxy 0 exCfgBh).2 = none ∧
    bindsTo (exGw.UpdateProxy 0 exCfgBh).1 "B" "h" 0 = false ∧
    bindsTo (exGw.UpdateProxy 0 exCfgBh).1 "A" "h" 0 = true := by
  refine ⟨by decide, by decide, by decide, by decide, by decide, by decide⟩

/-- C5: calling `ListenAndServe` on a registry with zero gates returns
`ErrNoGateInGateway` and leaves the registry (in particular its gate map and
running flag) unchanged; the zero-gate condition is the only one under which
the call returns an error; and the registry ends not running whenever it
started not running. -/
theorem C5_listenAndServe_empty (gw : Gateway) :
    (gw.gates = [] → gw.ListenAndServe = (gw, some Err.noGateInGateway)) ∧
    ((gw.ListenAndServe).2.isSome = true ↔ gw.gates = []) ∧
    (gw.running = false → (gw.ListenAndServe).1.running = false) := by
  unfold Gateway.ListenAndServe
  by_cases h : gw.gates.length ≤ 0
  · have he : gw.gates = [] := List.length_eq_zero.mp (Nat.le_zero.mp h)
    simp [h, he]
  · have hne : gw.gates ≠ [] := by
      intro he
      rw [he] at h
      simp at h
    simp [h, hne]

/-- C5 witness: on the concrete empty registry, `ListenAndServe` returns
`ErrNoGateInGateway`, changes nothing, and leaves the registry not
running. -/
theorem C5_witness :
    exEmptyGw.gates = [] ∧
    exEmptyGw.ListenAndServe = (exEmptyGw, some Err.noGateInGateway) ∧
    (exEmptyGw.ListenAndServe).1.running = false :=
  ⟨rfl, (C5_listenAndServe_empty exEmptyGw).1 rfl,
   (C5_listenAndServe_empty exEmptyGw).2.2 rfl⟩

/-- C6: `AddGate` with a gate whose listening address is already a key fails
with `ErrGateSignatureAlreadyRegistered` and leaves the registry (hence its
address set) unchanged; with a fresh address the gate is inserted under that
address. -/
theorem C6_addGate (gw : Gateway) (gate : Gate) :
    ((alookup gate.listenTo gw.gates).isSome = true →
      gw.AddGate gate = (gw, some Err.gateSignatureAlreadyRegistered)) ∧
    (alookup gate.listenTo gw.gates = none →
      gw.AddGate gate = ({ gw with gates := ainsert gate.listenTo gate gw.gates }, none) ∧
      alookup gate.listenTo (gw.AddGate gate).1.gates = some gate) := by
  refine ⟨fun h => ?_, fun h => ⟨?_, ?_⟩⟩
  · simp [Gateway.AddGate, h]
  · simp [Gateway.AddGate, h]
  · simp [Gateway.AddGate, h, alookup_ainsert_self]

/-- C6 witness: adding a gate at the already-registered address A fails and
changes nothing; adding a gate at the fresh address C inserts it. -/
theorem C6_witness :
    ((alookup gateA.listenTo exGw.gates).isSome = true ∧
      exGw.AddGate gateA = (exGw, some Err.gateSignatureAlreadyRegistered)) ∧
    (alookup gateC.listenTo exGw.gates = none ∧
      alookup gateC.listenTo (exGw.AddGate gateC).1.gates = some gateC) :=
  ⟨⟨by decide, (C6_addGate exGw gateA).1 (by decide)⟩,
   ⟨by decide, ((C6_addGate exGw gateC).2 (by decide)).2⟩⟩

/-- C7: `RemoveGate` on an address with no registered gate, and
`RemoveProxy` on an address with no registered gate, are no-ops: the whole
registry state (gate map, heap, running flag) is returned unchanged, and
neither operation can signal an error. -/
theorem C7_remove_absent_noop (gw : Gateway) (addr domainName : String)
    (h : alookup addr gw.gates = none) :
    gw.RemoveGate addr = gw ∧ gw.RemoveProxy addr domainName = gw := by
  constructor
  · unfold Gateway.RemoveGate
    rw [h]
  · unfold Gateway.RemoveProxy
    rw [h]

/-- C7 witness: removing the unregistered address Z (as a gate or as a route
binding) leaves the concrete registry untouched. -/
theorem C7_witness :
    alookup "Z" exGw.gates = none ∧
    exGw.RemoveGate "Z" = exGw ∧
    exGw.RemoveProxy "Z" "h" = exGw :=
  ⟨by decide, (C7_remove_absent_noop exGw "Z" "h" (by decide)).1,
   (C7_remove_absent_noop exGw "Z" "h" (by decide)).2⟩

/-- C4: when the new config's address equals the route's current address,
`UpdateProxy` fails with `ErrGateDoesNotExist` when no gate is registered
for that address (leaving the registry unchanged), and otherwise delegates
to that gate's `updateProxy`, propagating its outcome; in every outcome the
registry's set of registered addresses is unchanged. -/
theorem C4_updateProxy_same_address (gw : Gateway) (pid : ProxyId) (cfg : ProxyConfig)
    (hsame : cfg.listenTo = (gw.heap pid).listenTo) :
    (alookup (gw.heap pid).listenTo gw.gates = none →
      gw.UpdateProxy pid cfg = (gw, some Err.gateDoesNotExist)) ∧
    (∀ gate, alookup (gw.heap pid).listenTo gw.gates = some gate →
      (∀ e, gate.updateProxy gw.heap pid cfg = Except.error e →
        gw.UpdateProxy pid cfg = (gw, some e)) ∧
      (∀ gate' heap', gate.updateProxy gw.heap pid cfg = Except.ok (gate', heap') →
        gw.UpdateProxy pid cfg =
          ({ gw with gates := ainsert (gw.heap pid).listenTo gate' gw.gates, heap := heap' },
           none))) ∧
    (gw.UpdateProxy pid cfg).1.addrs = gw.addrs := by
  refine ⟨fun hg => UpdateProxy_same_none_eq gw pid cfg hsame hg,
    fun gate hg => ⟨fun e he => UpdateProxy_same_error_eq gw pid cfg gate e hsame hg he,
      fun gate' heap' hok => UpdateProxy_same_ok_eq gw pid cfg gate gate' heap' hsame hg hok⟩,
    ?_⟩
  cases hg : alookup (gw.heap pid).listenTo gw.gates with
  | none => rw [UpdateProxy_same_none_eq gw pid cfg hsame hg]
  | some gate =>
      cases hu : gate.updateProxy gw.heap pid cfg with
      | error e => rw [UpdateProxy_same_error_eq gw pid cfg gate e hsame hg hu]
      | ok gh =>
          obtain ⟨gate', heap'⟩ := gh
          rw [UpdateProxy_same_ok_eq gw pid cfg gate gate' heap' hsame hg hu]
          simp only [Gateway.addrs]
          exact map_fst_ainsert_of_some (gw.heap pid).listenTo gate' gate gw.gates hg

/-- C4 witness: with the address unchanged, reconciling on a registry with
no gate for it fails with `ErrGateDoesNotExist` and changes nothing, and on
a registry that has the gate the address set stays the same. -/
theorem C4_witness :
    exCfgA.listenTo = (exEmptyGw.heap 0).listenTo ∧
    exEmptyGw.UpdateProxy 0 exCfgA = (exEmptyGw, some Err.gateDoesNotExist) ∧
    (exGw.UpdateProxy 0 exCfgA).1.addrs = exGw.addrs :=
  ⟨by decide,
   (C4_updateProxy_same_address exEmptyGw 0 exCfgA (by decide)).1 (by decide),
   (C4_updateProxy_same_address exGw 0 exCfgA (by decide)).2.2⟩

/-- C8: `AddProxy` on a route whose address has no registered gate, when it
succeeds, creates exactly one new gate for that address holding exactly
that route under its hostname, and the gate count grows by exactly one;
when a gate for the address already exists, `AddProxy` delegates to that
gate's `addProxy`, propagating its outcome, and the gate count is
unchanged. -/
theorem C8_addProxy (gw : Gateway) (pid : ProxyId) :
    (alookup (gw.heap pid).listenTo gw.gates = none → (gw.AddProxy pid).2 = none →
      alookup (gw.heap pid).listenTo (gw.AddProxy pid).1.gates =
        some (Gate.mk (gw.heap pid).listenTo [((gw.heap pid).domainName, pid)]) ∧
      (gw.AddProxy pid).1.gates.length = gw.gates.length + 1) ∧
    (∀ gate, alookup (gw.heap pid).listenTo gw.gates = some gate →
      (∀ e, gate.addProxy gw.heap pid = Except.error e → gw.AddProxy pid = (gw, some e)) ∧
      (∀ gate', gate.addProxy gw.heap pid = Except.ok gate' →
        gw.AddProxy pid =
          ({ gw with gates := ainsert (gw.heap pid).listenTo gate' gw.gates }, none)) ∧
      (gw.AddProxy pid).1.gates.length = gw.gates.length) := by
  constructor
  · intro hg hok
    by_cases hne : (gw.heap pid).listenTo = ""
    · rw [AddProxy_fresh_invalid_eq gw pid hg hne] at hok
      simp at hok
    · rw [AddProxy_fresh_eq gw pid hg hne]
      dsimp only
      constructor
      · exact alookup_ainsert_self _ _ _
      · have h1 : alookup (gw.heap pid).listenTo
            (ainsert (gw.heap pid).listenTo (Gate.mk (gw.heap pid).listenTo []) gw.gates) =
            some (Gate.mk (gw.heap pid).listenTo []) := alookup_ainsert_self _ _ _
        rw [ainsert_length_of_some _ _ _ _ h1, ainsert_length_of_none _ _ _ hg]
  · intro gate hg
    refine ⟨fun e he => AddProxy_existing_error_eq gw pid gate e hg he,
      fun gate' hok => AddProxy_existing_ok_eq gw pid gate gate' hg hok, ?_⟩
    cases ha : gate.addProxy gw.heap pid with
    | error e => rw [AddProxy_existing_error_eq gw pid gate e hg ha]
    | ok gate' =>
        rw [AddProxy_existing_ok_eq gw pid gate gate' hg ha]
        dsimp only
        exact ainsert_length_of_some _ gate' gate _ hg

/-- C8 witness: adding route 1 (address B) to a registry without a gate for
B creates exactly the gate B holding route 1 under h2 and grows the count
by one; adding it to a registry that already has gate B keeps the count. -/
theorem C8_witness :
    (alookup (exGwA.heap 1).listenTo exGwA.gates = none ∧
      (exGwA.AddProxy 1).2 = none ∧
      alookup "B" (exGwA.AddProxy 1).1.gates = some (Gate.mk "B" [("h2", 1)]) ∧
      (exGwA.AddProxy 1).1.gates.length = exGwA.gates.length + 1) ∧
    (alookup (exGw.heap 1).listenTo exGw.gates = some gateB ∧
      (exGw.AddProxy 1).1.gates.length = exGw.gates.length) :=
  ⟨⟨by decide, by decide,
     ((C8_addProxy exGwA 1).1 (by decide) (by decide)).1,
     ((C8_addProxy exGwA 1).1 (by decide) (by decide)).2⟩,
   ⟨by decide, ((C8_addProxy exGw 1).2 gateB (by decide)).2.2⟩⟩

/-- C9: a change-notification event whose kind is not the content-modified
kind (fsnotify write) — for example a create, rename or delete — causes no
configuration reload and no `UpdateProxy` call, and leaves the registry
state unchanged. -/
theorem C9_onConfigChange_ignores_non_write (gw : Gateway) (pid : ProxyId)
    (loadRes : Except Err ProxyConfig) (op : FsnotifyOp) (h : op ≠ FsnotifyOp.write) :
    gw.onConfigChange pid loadRes op = (gw, false, false) := by
  simp [Gateway.onConfigChange, h]

/-- C9 witness: a remove event on the concrete registry triggers neither a
reload nor a reconciliation and changes nothing. -/
theorem C9_witness :
    FsnotifyOp.remove ≠ FsnotifyOp.write ∧
    exGw.onConfigChange 0 (Except.ok exCfg) FsnotifyOp.remove = (exGw, false, false) :=
  ⟨by decide,
   C9_onConfigChange_ignores_non_write exGw 0 (Except.ok exCfg) FsnotifyOp.remove (by decide)⟩

/-- C10: reconcile is not atomic on error in the address-changing cases:
when the address changes, `updateConfig` succeeds (the config is valid) and
the call nevertheless returns an error, the route is still registered under
its old (address, hostname) binding, is not registered under its new one,
and its own fields already report the new identity. -/
theorem C10_updateProxy_error_not_atomic (gw : Gateway) (pid : ProxyId) (cfg : ProxyConfig)
    (e : Err)
    (hdiff : cfg.listenTo ≠ (gw.heap pid).listenTo)
    (hvalid : cfg.valid = true)
    (hold : bindsTo gw (gw.heap pid).listenTo (gw.heap pid).domainName pid = true)
    (hnotnew : bindsTo gw cfg.listenTo cfg.domainName pid = false)
    (herr : (gw.UpdateProxy pid cfg).2 = some e) :
    bindsTo (gw.UpdateProxy pid cfg).1 (gw.heap pid).listenTo (gw.heap pid).domainName pid
      = true ∧
    bindsTo (gw.UpdateProxy pid cfg).1 cfg.listenTo cfg.domainName pid = false ∧
    (gw.UpdateProxy pid cfg).1.heap pid = Proxy.mk cfg.listenTo cfg.domainName cfg.proxyTo := by
  have hproxy : (gw.withUpdated pid cfg).heap pid =
      Proxy.mk cfg.listenTo cfg.domainName cfg.proxyTo := by
    simp [Gateway.withUpdated, hupdate]
  cases hg : alookup cfg.listenTo gw.gates with
  | none =>
      have hg1 : alookup ((gw.withUpdated pid cfg).heap pid).listenTo
          (gw.withUpdated pid cfg).gates = none := by
        rw [hproxy]
        exact hg
      by_cases hne : cfg.listenTo = ""
      · have hadd := AddProxy_fresh_invalid_eq (gw.withUpdated pid cfg) pid hg1
          (by rw [hproxy]; exact hne)
        have hupd := UpdateProxy_move_fresh_error_eq gw pid cfg (gw.withUpdated pid cfg)
          Err.invalidGateAddress hdiff hg hvalid hadd
        rw [hupd]
        refine ⟨hold, ?_, hproxy⟩
        simp [bindsTo, Gateway.withUpdated, hg]
      · have hadd := AddProxy_fresh_eq (gw.withUpdated pid cfg) pid hg1
          (by rw [hproxy]; exact hne)
        have hupd := UpdateProxy_move_fresh_ok_eq gw pid cfg _ hdiff hg hvalid hadd
        rw [hupd] at herr
        simp at herr
  | some gate =>
      cases ha : gate.addProxy (gw.withUpdated pid cfg).heap pid with
      | ok gate' =>
          have hupd := UpdateProxy_move_existing_ok_eq gw pid cfg gate gate' hdiff hg hvalid ha
          rw [hupd] at herr
          simp at herr
      | error e2 =>
          have hupd := UpdateProxy_move_existing_error_eq gw pid cfg gate e2 hdiff hg hvalid ha
          rw [hupd]
          exact ⟨hold, hnotnew, hproxy⟩

/-- C10 witness: moving route 0 from (A, h) to (B, h2) while gate B already
has a different route under h2 fails with `duplicateHostname`, and the
route is left registered only under (A, h) although its own fields already
read (B, h2). -/
theorem C10_witness :
    exCfg.listenTo ≠ (exGwB2.heap 0).listenTo ∧
    exCfg.valid = true ∧
    (exGwB2.UpdateProxy 0 exCfg).2 = some Err.duplicateHostname ∧
    bindsTo (exGwB2.UpdateProxy 0 exCfg).1 "A" "h" 0 = true ∧
    bindsTo (exGwB2.UpdateProxy 0 exCfg).1 "B" "h2" 0 = false ∧
    (exGwB2.UpdateProxy 0 exCfg).1.heap 0 = Proxy.mk "B" "h2" "t" :=
  ⟨by decide, by decide, by decide,
   (C10_updateProxy_error_not_atomic exGwB2 0 exCfg Err.duplicateHostname (by decide) (by decide)
     (by decide) (by decide) (by decide)).1,
   (C10_updateProxy_error_not_atomic exGwB2 0 exCfg Err.duplicateHostname (by decide) (by decide)
     (by decide) (by decide) (by decide)).2.1,
   (C10_updateProxy_error_not_atomic exGwB2 0 exCfg Err.duplicateHostname (by decide) (by decide)
     (by decide) (by decide) (by decide)).2.2⟩

/-- C2: reconciling a route to a new address that has no registered gate:
on success, a gate for the new address exists and maps the new hostname to
the route, the route's former gate no longer maps its old hostname, the
route object carries the new configuration — and some state visited by the
call holds the new and the old binding simultaneously, i.e. the new binding
is added (by `AddProxy`) before the old one is removed. -/
theorem C2_updateProxy_move_fresh (gw : Gateway) (pid : ProxyId) (cfg : ProxyConfig)
    (hwf : GatewayWF gw)
    (hdiff : cfg.listenTo ≠ (gw.heap pid).listenTo)
    (hg : alookup cfg.listenTo gw.gates = none)
    (hold : bindsTo gw (gw.heap pid).listenTo (gw.heap pid).domainName pid = true)
    (hok : (gw.UpdateProxy pid cfg).2 = none) :
    bindsTo (gw.UpdateProxy pid cfg).1 cfg.listenTo cfg.domainName pid = true ∧
    bindsTo (gw.UpdateProxy pid cfg).1 (gw.heap pid).listenTo (gw.heap pid).domainName pid
      = false ∧
    (gw.UpdateProxy pid cfg).1.heap pid = Proxy.mk cfg.listenTo cfg.domainName cfg.proxyTo ∧
    ∃ s ∈ gw.UpdateProxyTrace pid cfg,
      bindsTo s cfg.listenTo cfg.domainName pid = true ∧
      bindsTo s (gw.heap pid).listenTo (gw.heap pid).domainName pid = true := by
  have hproxy : (gw.withUpdated pid cfg).heap pid =
      Proxy.mk cfg.listenTo cfg.domainName cfg.proxyTo := by
    simp [Gateway.withUpdated, hupdate]
  have hAK : (gw.heap pid).listenTo ≠ cfg.listenTo := Ne.symm hdiff
  have hvalid : cfg.valid = true := by
    cases hv : cfg.valid with
    | true => rfl
    | false =>
        rw [UpdateProxy_move_invalid_eq gw pid cfg hdiff hv] at hok
        simp at hok
  have hg1 : alookup ((gw.withUpdated pid cfg).heap pid).listenTo
      (gw.withUpdated pid cfg).gates = none := by
    rw [hproxy]
    exact hg
  by_cases hne : cfg.listenTo = ""
  · exfalso
    have hadd := AddProxy_fresh_invalid_eq (gw.withUpdated pid cfg) pid hg1
      (by rw [hproxy]; exact hne)
    rw [UpdateProxy_move_fresh_error_eq gw pid cfg (gw.withUpdated pid cfg)
      Err.invalidGateAddress hdiff hg hvalid hadd] at hok
    simp at hok
  · have hadd := AddProxy_fresh_eq (gw.withUpdated pid cfg) pid hg1
      (by rw [hproxy]; exact hne)
    rw [hproxy] at hadd
    dsimp only at hadd
    have hupd := UpdateProxy_move_fresh_ok_eq gw pid cfg _ hdiff hg hvalid hadd
    have htr := UpdateProxyTrace_move_fresh_ok_eq gw pid cfg _ hdiff hg hvalid hadd
    have htrA := AddProxyTrace_fresh_eq (gw.withUpdated pid cfg) pid hg1
      (by rw [hproxy]; exact hne)
    rw [hproxy] at htrA
    dsimp only at htrA
    have heqOld : alookup (gw.heap pid).listenTo
        (ainsert cfg.listenTo (Gate.mk cfg.listenTo [(cfg.domainName, pid)])
          (ainsert cfg.listenTo (Gate.mk cfg.listenTo []) (gw.withUpdated pid cfg).gates)) =
        alookup (gw.heap pid).listenTo (gw.withUpdated pid cfg).gates := by
      rw [alookup_ainsert_of_ne _ _ _ _ hAK, alookup_ainsert_of_ne _ _ _ _ hAK]
    rw [hupd]
    refine ⟨?_, ?_, ?_, ?_⟩
    · rw [bindsTo_RemoveProxy_other _ (gw.heap pid).listenTo (gw.heap pid).domainName
        cfg.listenTo cfg.domainName pid hdiff]
      simp [bindsTo, alookup_ainsert_self, alookup]
    · apply bindsTo_RemoveProxy_self
      intro g hgat
      dsimp only at hgat
      rw [heqOld] at hgat
      simp only [Gateway.withUpdated] at hgat
      exact hwf.2 ((gw.heap pid).listenTo, g) (alookup_mem _ g gw.gates hgat)
    · rw [RemoveProxy_heap]
      exact hproxy
    · refine ⟨{ gw.withUpdated pid cfg with
          gates := ainsert cfg.listenTo (Gate.mk cfg.listenTo [(cfg.domainName, pid)])
            (ainsert cfg.listenTo (Gate.mk cfg.listenTo []) (gw.withUpdated pid cfg).gates) },
        ?_, ?_, ?_⟩
      · rw [htr, htrA]
        simp
      · simp [bindsTo, alookup_ainsert_self, alookup]
      · rw [bindsTo_update_gates (gw.withUpdated pid cfg) _ (gw.heap pid).listenTo
          (gw.heap pid).domainName pid heqOld]
        exact hold

/-- C2 witness: moving route 0 from (A, h) to (C, h2) with no gate C
registered succeeds; afterwards gate C maps h2 to the route, gate A no
longer maps h, the route object reads (C, h2, t), and a state visited by
the call holds both bindings at once. -/
theorem C2_witness :
    GatewayWF exGwA ∧
    exCfgC.listenTo ≠ (exGwA.heap 0).listenTo ∧
    alookup exCfgC.listenTo exGwA.gates = none ∧
    (exGwA.UpdateProxy 0 exCfgC).2 = none ∧
    bindsTo (exGwA.UpdateProxy 0 exCfgC).1 "C" "h2" 0 = true ∧
    bindsTo (exGwA.UpdateProxy 0 exCfgC).1 "A" "h" 0 = false ∧
    (exGwA.UpdateProxy 0 exCfgC).1.heap 0 = Proxy.mk "C" "h2" "t" ∧
    ∃ s ∈ exGwA.UpdateProxyTrace 0 exCfgC,
      bindsTo s "C" "h2" 0 = true ∧ bindsTo s "A" "h" 0 = true :=
  ⟨by decide, by decide, by decide, by decide,
   (C2_updateProxy_move_fresh exGwA 0 exCfgC (by decide) (by decide) (by decide) (by decide)
     (by decide)).1,
   (C2_updateProxy_move_fresh exGwA 0 exCfgC (by decide) (by decide) (by decide) (by decide)
     (by decide)).2.1,
   (C2_updateProxy_move_fresh exGwA 0 exCfgC (by decide) (by decide) (by decide) (by decide)
     (by decide)).2.2.1,
   (C2_updateProxy_move_fresh exGwA 0 exCfgC (by decide) (by decide) (by decide) (by decide)
     (by decide)).2.2.2⟩

/-- C3: within an address-changing reconcile of a route that starts out
reachable under its old (address, hostname) binding, every registry state
visited by the call — the final state included — keeps the route reachable
under its old binding or under its new one: no visited state has both
bindings absent. -/
theorem C3_no_unreachable_window (gw : Gateway) (pid : ProxyId) (cfg : ProxyConfig)
    (hdiff : cfg.listenTo ≠ (gw.heap pid).listenTo)
    (hold : bindsTo gw (gw.heap pid).listenTo (gw.heap pid).domainName pid = true) :
    (∀ s ∈ gw.UpdateProxyTrace pid cfg,
      bindsTo s (gw.heap pid).listenTo (gw.heap pid).domainName pid = true ∨
      bindsTo s cfg.listenTo cfg.domainName pid = true) ∧
    (bindsTo (gw.UpdateProxy pid cfg).1 (gw.heap pid).listenTo (gw.heap pid).domainName pid
        = true ∨
     bindsTo (gw.UpdateProxy pid cfg).1 cfg.listenTo cfg.domainName pid = true) := by
  have hproxy : (gw.withUpdated pid cfg).heap pid =
      Proxy.mk cfg.listenTo cfg.domainName cfg.proxyTo := by
    simp [Gateway.withUpdated, hupdate]
  have hAK : (gw.heap pid).listenTo ≠ cfg.listenTo := Ne.symm hdiff
  have hold1 : bindsTo (gw.withUpdated pid cfg) (gw.heap pid).listenTo
      (gw.heap pid).domainName pid = true := hold
  cases hv : cfg.valid with
  | false =>
      have htr := UpdateProxyTrace_move_invalid_eq gw pid cfg hdiff hv
      have hupd := UpdateProxy_move_invalid_eq gw pid cfg hdiff hv
      rw [htr, hupd]
      constructor
      · intro s hs
        simp only [List.mem_singleton] at hs
        subst hs
        exact Or.inl hold
      · exact Or.inl hold
  | true =>
      cases hg : alookup cfg.listenTo gw.gates with
      | none =>
          have hg1 : alookup ((gw.withUpdated pid cfg).heap pid).listenTo
              (gw.withUpdated pid cfg).gates = none := by
            rw [hproxy]
            exact hg
          by_cases hne : cfg.listenTo = ""
          · have hadd := AddProxy_fresh_invalid_eq (gw.withUpdated pid cfg) pid hg1
              (by rw [hproxy]; exact hne)
            have htrA := AddProxyTrace_fresh_invalid_eq (gw.withUpdated pid cfg) pid hg1
              (by rw [hproxy]; exact hne)
            have hupd := UpdateProxy_move_fresh_error_eq gw pid cfg (gw.withUpdated pid cfg)
              Err.invalidGateAddress hdiff hg hv hadd
            have htr := UpdateProxyTrace_move_fresh_error_eq gw pid cfg (gw.withUpdated pid cfg)
              Err.invalidGateAddress hdiff hg hv hadd
            rw [htr, htrA, hupd]
            constructor
            · intro s hs
              simp only [List.mem_cons, List.mem_append, List.mem_singleton,
                List.not_mem_nil, or_false] at hs
              rcases hs with rfl | rfl
              · exact Or.inl hold
              · exact Or.inl hold1
            · exact Or.inl hold1
          · have hadd := AddProxy_fresh_eq (gw.withUpdated pid cfg) pid hg1
              (by rw [hproxy]; exact hne)
            rw [hproxy] at hadd
            dsimp only at hadd
            have hupd := UpdateProxy_move_fresh_ok_eq gw pid cfg _ hdiff hg hv hadd
            have htr := UpdateProxyTrace_move_fresh_ok_eq gw pid cfg _ hdiff hg hv hadd
            have htrA := AddProxyTrace_fresh_eq (gw.withUpdated pid cfg) pid hg1
              (by rw [hproxy]; exact hne)
            rw [hproxy] at htrA
            dsimp only at htrA
            have hE1 : bindsTo { gw.withUpdated pid cfg with
                gates := ainsert cfg.listenTo (Gate.mk cfg.listenTo [])
                  (gw.withUpdated pid cfg).gates }
                (gw.heap pid).listenTo (gw.heap pid).domainName pid = true := by
              rw [bindsTo_update_gates (gw.withUpdated pid cfg) _ _ _ pid
                (alookup_ainsert_of_ne _ _ _ _ hAK)]
              exact hold1
            have hE2 : bindsTo { gw.withUpdated pid cfg with
                gates := ainsert cfg.listenTo (Gate.mk cfg.listenTo [(cfg.domainName, pid)])
                  (ainsert cfg.listenTo (Gate.mk cfg.listenTo [])
                    (gw.withUpdated pid cfg).gates) }
                (gw.heap pid).listenTo (gw.heap pid).domainName pid = true := by
              rw [bindsTo_update_gates (gw.withUpdated pid cfg) _ _ _ pid
                (by rw [alookup_ainsert_of_ne _ _ _ _ hAK, alookup_ainsert_of_ne _ _ _ _ hAK])]
              exact hold1
            have hF : bindsTo (Gateway.RemoveProxy { gw.withUpdated pid cfg with
                gates := ainsert cfg.listenTo (Gate.mk cfg.listenTo [(cfg.domainName, pid)])
                  (ainsert cfg.listenTo (Gate.mk cfg.listenTo [])
                    (gw.withUpdated pid cfg).gates) }
                (gw.heap pid).listenTo (gw.heap pid).domainName)
                cfg.listenTo cfg.domainName pid = true := by
              rw [bindsTo_RemoveProxy_other _ (gw.heap pid).listenTo (gw.heap pid).domainName
                cfg.listenTo cfg.domainName pid hdiff]
              simp [bindsTo, alookup_ainsert_self, alookup]
            rw [htr, htrA, hupd]
            constructor
            · intro s hs
              simp only [List.cons_append, List.mem_cons, List.mem_singleton,
                List.nil_append, List.not_mem_nil, or_false] at hs
              rcases hs with rfl | rfl | rfl | rfl | rfl
              · exact Or.inl hold
              · exact Or.inl hold1
              · exact Or.inl hE1
              · exact Or.inl hE2
              · exact Or.inr hF
            · exact Or.inr hF
      | some gate =>
          cases ha : gate.addProxy (gw.withUpdated pid cfg).heap pid with
          | error e =>
              have htr := UpdateProxyTrace_move_existing_error_eq gw pid cfg gate e
                hdiff hg hv ha
              have hupd := UpdateProxy_move_existing_error_eq gw pid cfg gate e hdiff hg hv ha
              rw [htr, hupd]
              constructor
              · intro s hs
                simp only [List.mem_cons, List.mem_singleton, List.not_mem_nil,
                  or_false] at hs
                rcases hs with rfl | rfl
                · exact Or.inl hold
                · exact Or.inl hold1
              · exact Or.inl hold1
          | ok gate' =>
              have htr := UpdateProxyTrace_move_existing_ok_eq gw pid cfg gate gate'
                hdiff hg hv ha
              have hupd := UpdateProxy_move_existing_ok_eq gw pid cfg gate gate' hdiff hg hv ha
              have hG2 : bindsTo { gw.withUpdated pid cfg with
                  gates := ainsert cfg.listenTo gate' gw.gates }
                  (gw.heap pid).listenTo (gw.heap pid).domainName pid = true := by
                rw [bindsTo_update_gates (gw.withUpdated pid cfg) _ _ _ pid
                  (by rw [alookup_ainsert_of_ne _ _ _ _ hAK]; rfl)]
                exact hold1
              have hG3 : bindsTo { gw.withUpdated pid cfg with
                  gates := ainsert cfg.listenTo
                    (gate'.removeProxy (gw.heap pid).domainName)
                    (ainsert cfg.listenTo gate' gw.gates) }
                  (gw.heap pid).listenTo (gw.heap pid).domainName pid = true := by
                rw [bindsTo_update_gates (gw.withUpdated pid cfg) _ _ _ pid
                  (by rw [alookup_ainsert_of_ne _ _ _ _ hAK,
                    alookup_ainsert_of_ne _ _ _ _ hAK]; rfl)]
                exact hold1
              rw [htr, hupd]
              constructor
              · intro s hs
                simp only [List.mem_cons, List.mem_singleton, List.not_mem_nil,
                  or_false] at hs
                rcases hs with rfl | rfl | rfl | rfl
                · exact Or.inl hold
                · exact Or.inl hold1
                · exact Or.inl hG2
                · exact Or.inl hG3
              · exact Or.inl hG3

/-- C3 witness: in the concrete move of route 0 from (A, h) to (C, h2),
every state visited by the call keeps the route reachable under (A, h) or
under (C, h2), and so does the final state. -/
theorem C3_witness :
    exCfgC.listenTo ≠ (exGwA.heap 0).listenTo ∧
    bindsTo exGwA "A" "h" 0 = true ∧
    (∀ s ∈ exGwA.UpdateProxyTrace 0 exCfgC,
      bindsTo s "A" "h" 0 = true ∨ bindsTo s "C" "h2" 0 = true) ∧
    (bindsTo (exGwA.UpdateProxy 0 exCfgC).1 "A" "h" 0 = true ∨
     bindsTo (exGwA.UpdateProxy 0 exCfgC).1 "C" "h2" 0 = true) :=
  ⟨by decide, by decide,
   (C3_no_unreachable_window exGwA 0 exCfgC (by decide) (by decide)).1,
   (C3_no_unreachable_window exGwA 0 exCfgC (by decide) (by decide)).2⟩

end Infrared
